import Mathlib

/-!
Verification development for the `termui` terminal-UI framework.

This file gives a shallow embedding, in Lean, of the parts of the Python
sources that the specification's testable properties talk about:

* `src/termui/utils/geometry.py` and `src/termui/geometry.py` (the two
  `Region` value types),
* `src/termui/keybind.py` (`Keybind.matches`),
* `src/termui/dom_tree.py` together with `src/termui/dom/dom_node.py`
  (`DOMTree.add_node`, `DOMTree.remove_node`),
* `src/termui/renderer.py` (`FrameBuffer`, `RenderNode`, `RenderTree`,
  `Renderer.render_frame`),
* `src/termui/_driver.py` (`Driver.process_message`),
* `src/termui/_xterm_parser.py` (`Parser.feed` / `Parser.tick` and the
  `XTermParser` escape-sequence state machine), with `src/termui/keys.py`
  and `src/termui/events.py` / `src/termui/messages.py`.

Modelling conventions:

* Python `int` is `Int` (unbounded), Python `float` is `ℚ`: every float
  operation the embedded code paths perform on the inputs used in this file
  (integer-valued additions, subtractions) is exact, so `ℚ` and IEEE floats
  agree there.
* mutation is explicit state passing; a raised exception is an `Except`
  error value (or a recorded error field when mutations performed before the
  `raise` must stay visible);
* Python object identity is an explicit address (`Nat`) into an arena when
  objects are shared and mutated (DOM nodes); tree-shaped data that is never
  aliased (render nodes) is an inductive tree;
* dynamically typed dataclass slots (the mouse-event fields, which the code
  fills positionally with values of several runtime types) are a `PyVal`
  sum.
-/

namespace Termui

/-! ## Geometry

`Region` from `src/termui/utils/geometry.py` (the variant used by the
renderer and the event model; it raises `DimensionError` from
`src/termui/errors.py`), and `Region` from `src/termui/geometry.py` (an
earlier iteration of the same class; it raises `ValueError`).
-/

/-- A raised `DimensionError` (src/termui/errors.py) carrying its message
kind. -/
inductive DimensionError
  | negativeCoordinates
  | nonPositiveDimensions
deriving Repr, DecidableEq

structure Region where
  x : Int
  y : Int
  width : Int
  height : Int
deriving Repr, DecidableEq

/-- `Region.__post_init__` of `src/termui/utils/geometry.py` (lines 15-24):
construction validates `x < 0 or y < 0` and then `width < 0 or height < 0`;
note the code checks `< 0` although its own error message demands positive
dimensions. -/
def Region.mk? (x y width height : Int) : Except DimensionError Region :=
  if x < 0 ∨ y < 0 then
    .error .negativeCoordinates
  else if width < 0 ∨ height < 0 then
    .error .nonPositiveDimensions
  else
    .ok ⟨x, y, width, height⟩

/-- `Region.contains` of `src/termui/utils/geometry.py`. -/
def Region.contains (r : Region) (x y : Int) : Bool :=
  (r.x ≤ x ∧ x < r.x + r.width) ∧ (r.y ≤ y ∧ y < r.y + r.height)

/-- A raised `ValueError` carrying its message. -/
structure ValueError where
  message : String
deriving Repr, DecidableEq

structure GeometryRegion where
  x : Int
  y : Int
  width : Int
  height : Int
deriving Repr, DecidableEq

/-- `Region.__post_init__` of `src/termui/geometry.py` (lines 26-31): this
iteration rejects `width <= 0 or height <= 0`, raising `ValueError`. -/
def GeometryRegion.mk? (x y width height : Int) : Except ValueError GeometryRegion :=
  if x < 0 ∨ y < 0 ∨ width ≤ 0 ∨ height ≤ 0 then
    .error ⟨"Region must have non-negative coordinates and positive dimensions."⟩
  else
    .ok ⟨x, y, width, height⟩

/-! ## Keybinds (src/termui/keybind.py)

The `action` callback field of the `Keybind` dataclass is omitted: it is a
function value that `matches` never consults.
-/

structure Keybind where
  key : String
  description : String := ""
  visible : Bool := true
deriving Repr, DecidableEq

/-- Python's `str.split` with the one-character separator `"+"`, written as
structural recursion over the characters (the semantics of
`String.splitOn "+"`, in a form the kernel can evaluate). -/
def splitPlus : List Char → List String
  | [] => [""]
  | c :: rest =>
    match splitPlus rest with
    | [] => [""]
    | h :: t =>
      if c = '+' then "" :: h :: t
      else (String.singleton c ++ h) :: t

/-- `Keybind.parse_keybind`: `self.key.split("+")`. -/
def Keybind.parse_keybind (kb : Keybind) : List String :=
  splitPlus kb.key.data

/-- `Keybind.matches`: `set(required_keys) == pressed_keys`. -/
def Keybind.matches (kb : Keybind) (pressed_keys : Finset String) : Bool :=
  kb.parse_keybind.toFinset = pressed_keys

/-! ## DOM tree (src/termui/dom_tree.py, src/termui/dom/dom_node.py)

`dom_tree.py` imports `DOMNode` from `termui.dom_node`; the class of that
name in the sources is in `src/termui/dom/dom_node.py`. DOM nodes are
mutable Python objects shared between the tree's lookup tables, the `nodes`
set and the child lists, so the embedding stores them in an arena indexed by
an address (`Addr`) standing for object identity. Membership tests
(`node in self.nodes`, `child in self.children`) are address equality: the
dataclass `__eq__` together with CPython's identity shortcut behaves as
identity for the lookups the tree performs on its own stored objects.
The `widget` field of `DOMNode` is omitted (never read by the tree). -/

abbrev Addr := Nat

structure DOMNodeData where
  id : String
  name : Option String
  parent : Option Addr
  children : List Addr
  dirty : Bool
deriving Repr, DecidableEq

/-- The key used for `nodes_by_name`: `node.name if node.name else node.id`
(`None` and the default `""` are both falsy). -/
def DOMNodeData.nameKey (n : DOMNodeData) : String :=
  match n.name with
  | some s => if s = "" then n.id else s
  | none => n.id

structure DOMTree where
  arena : Addr → Option DOMNodeData
  root : Option Addr
  nodes : Finset Addr
  nodes_by_id : String → Option Addr
  nodes_by_name : String → Option Addr
  layout_dirty : Bool

/-- `DOMTree.__init__`. -/
def DOMTree.empty : DOMTree :=
  { arena := fun _ => none
    root := none
    nodes := ∅
    nodes_by_id := fun _ => none
    nodes_by_name := fun _ => none
    layout_dirty := false }

/-- Update one node in the arena. -/
def DOMTree.setNode (t : DOMTree) (a : Addr) (d : DOMNodeData) : DOMTree :=
  { t with arena := fun a' => if a' = a then some d else t.arena a' }

/-- `DOMTree._add_node_to_lookups` (lines 59-73): adds `node` to `nodes`,
`nodes_by_id` and `nodes_by_name` (dictionary assignment, overwriting any
existing entry for the same key), then recurses into `node.children`.
The recursion follows child pointers through the heap, so a `fuel` bound
makes it total; `none` models the divergence a cyclic heap would cause,
and never occurs on tree-shaped heaps with enough fuel. -/
def DOMTree.addNodeToLookups : Nat → DOMTree → Addr → Option DOMTree
  | 0, _, _ => none
  | fuel + 1, t, a =>
    match t.arena a with
    | none => none
    | some d =>
      let t1 :=
        { t with
          nodes := insert a t.nodes
          nodes_by_id := fun s => if s = d.id then some a else t.nodes_by_id s
          nodes_by_name := fun s => if s = d.nameKey then some a else t.nodes_by_name s }
      d.children.foldlM (fun acc c => DOMTree.addNodeToLookups fuel acc c) t1

/-- Result of `DOMTree.add_node`: the raised
`ValueError(f"Node with id {child.id} already exists")` (the spec calls this
failure `DuplicateId`), a successful new state, or `stuck` marking a
dangling address / exhausted fuel (impossible on well-formed inputs). -/
inductive AddResult
  | dup (id : String)
  | ok (t : DOMTree)
  | stuck

/-- `DOMTree.add_node` (lines 39-57): raise on `child.id in self.nodes_by_id`
first; adopt `parent` as root if the tree is empty; then
`parent.add_child(child)` (sets `child.parent`, appends to
`parent.children`) and `self._add_node_to_lookups(child)`. -/
def DOMTree.add_node (fuel : Nat) (t : DOMTree) (parent child : Addr) : AddResult :=
  match t.arena child with
  | none => .stuck
  | some childD =>
    if (t.nodes_by_id childD.id).isSome then
      .dup childD.id
    else
      let step1 : Option DOMTree :=
        if t.root.isNone then
          DOMTree.addNodeToLookups fuel { t with root := some parent } parent
        else some t
      match step1 with
      | none => .stuck
      | some t1 =>
        let t2 := t1.setNode child { childD with parent := some parent }
        match t2.arena parent with
        | none => .stuck
        | some pd =>
          let t3 := t2.setNode parent { pd with children := pd.children ++ [child] }
          match DOMTree.addNodeToLookups fuel t3 child with
          | none => .stuck
          | some t4 => .ok t4

/-- `DOMTree.remove_node` (lines 75-91): when the node is tracked, drop it
from `nodes`, pop its id key and its name key from the lookup dictionaries,
and detach it from its parent via `DOMNode.remove_child` (which clears
`child.parent` and removes the first occurrence from the child list). No
recursion into the node's children happens anywhere in this method. -/
def DOMTree.remove_node (t : DOMTree) (a : Addr) : DOMTree :=
  if a ∈ t.nodes then
    match t.arena a with
    | none => t
    | some d =>
      let t1 :=
        { t with
          nodes := t.nodes.erase a
          nodes_by_id := fun s => if s = d.id then none else t.nodes_by_id s
          nodes_by_name := fun s => if s = d.nameKey then none else t.nodes_by_name s }
      match d.parent with
      | none => t1
      | some p =>
        match t1.arena p with
        | none => t1
        | some pd =>
          if a ∈ pd.children then
            let t2 := t1.setNode a { d with parent := none }
            match t2.arena p with
            | none => t2
            | some pd2 => t2.setNode p { pd2 with children := pd2.children.erase a }
          else t1
  else t

/-- `DOMTree.get_node_by_id`. -/
def DOMTree.get_node_by_id (t : DOMTree) (node_id : String) : Option Addr :=
  t.nodes_by_id node_id

/-- `DOMTree.get_node_by_name`. -/
def DOMTree.get_node_by_name (t : DOMTree) (name : String) : Option Addr :=
  t.nodes_by_name name

/-- `b` is in the subtree below `a`: reachable through `children` lists. -/
inductive DOMTree.IsDescendant (t : DOMTree) : Addr → Addr → Prop
  | child (a b : Addr) (d : DOMNodeData) :
      t.arena a = some d → b ∈ d.children → DOMTree.IsDescendant t a b
  | step (a b c : Addr) :
      DOMTree.IsDescendant t a b → DOMTree.IsDescendant t b c →
      DOMTree.IsDescendant t a c

/-! ## Differential renderer (src/termui/renderer.py)

`Char` is from `src/termui/types/char.py` (named `RChar` here to avoid the
Lean builtin); colors are from `src/termui/colors/ansi.py` and
`src/termui/colors/rgb.py` and only matter through structural equality of
cells, so `colorize` (which merely formats the written text) is not
embedded: a diff write is recorded as the `cursor.move(x+1, y+1)` target
plus the cell that is written there. -/

inductive ColorV
  | ansiColor (code : Int)
  | rgb (red green blue : Int)
deriving Repr, DecidableEq

structure RChar where
  char : String
  fg_color : Option ColorV := none
  bg_color : Option ColorV := none
deriving Repr, DecidableEq

/-- `Char(" ")`, the background cell. -/
def blankChar : RChar := ⟨" ", none, none⟩

def mkGrid (width height : Int) : List (List RChar) :=
  List.replicate height.toNat (List.replicate width.toNat blankChar)

def getCell (grid : List (List RChar)) (y x : Nat) : Option RChar :=
  (grid.get? y).bind (fun row => row.get? x)

def setCell (grid : List (List RChar)) (y x : Nat) (c : RChar) : List (List RChar) :=
  match grid.get? y with
  | none => grid
  | some row => grid.set y (row.set x c)

structure FrameBuffer where
  width : Int
  height : Int
  current_frame : List (List RChar)
  previous_frame : List (List RChar)
  dirty_regions : Finset (Int × Int × Int × Int)

/-- `FrameBuffer.__init__` (lines 87-98). -/
def FrameBuffer.init (width height : Int) : FrameBuffer :=
  ⟨width, height, mkGrid width height, mkGrid width height, ∅⟩

/-- `FrameBuffer.mark_entire_screen_dirty` (lines 111-113). -/
def FrameBuffer.mark_entire_screen_dirty (fb : FrameBuffer) : FrameBuffer :=
  { fb with dirty_regions := insert (0, 0, fb.width, fb.height) fb.dirty_regions }

/-- `FrameBuffer.mark_region_dirty` (lines 115-123). -/
def FrameBuffer.mark_region_dirty (fb : FrameBuffer) (region : Region) : FrameBuffer :=
  let x := max 0 region.x
  let y := max 0 region.y
  let width := min (fb.width - x) region.width
  let height := min (fb.height - y) region.height
  if 0 < width ∧ 0 < height then
    { fb with dirty_regions := insert (x, y, width, height) fb.dirty_regions }
  else fb

/-- `FrameBuffer.resize` (lines 100-109). -/
def FrameBuffer.resize (fb : FrameBuffer) (width height : Int) : FrameBuffer :=
  if width = fb.width ∧ height = fb.height then fb
  else
    ({ fb with width := width, height := height
               current_frame := mkGrid width height
               previous_frame := mkGrid width height }).mark_entire_screen_dirty

/-- `FrameBuffer.clear` (lines 125-130). -/
def FrameBuffer.clear (fb : FrameBuffer) : FrameBuffer :=
  ({ fb with current_frame := mkGrid fb.width fb.height }).mark_entire_screen_dirty

/-- `FrameBuffer.draw_content` (lines 139-159). -/
def FrameBuffer.draw_content (fb : FrameBuffer) (region : Region)
    (content : List (List RChar)) (clip : Bool) : FrameBuffer :=
  let fb1 := content.enum.foldl (fun acc p =>
    let y : Int := region.y + (p.1 : Int)
    if clip ∧ (y < 0 ∨ y ≥ acc.height) then acc
    else p.2.enum.foldl (fun acc2 q =>
      let x : Int := region.x + (q.1 : Int)
      if clip ∧ (x < 0 ∨ x ≥ acc2.width) then acc2
      else if 0 ≤ x ∧ x < acc2.width ∧ 0 ≤ y ∧ y < acc2.height then
        if getCell acc2.current_frame y.toNat x.toNat ≠ some q.2 then
          { acc2 with current_frame := setCell acc2.current_frame y.toNat x.toNat q.2 }
        else acc2
      else acc2) acc) fb
  fb1.mark_region_dirty region

/-- One terminal write performed by `FrameBuffer.render`: the 1-indexed
`cursor.move` target and the cell written there. -/
structure RenderOutput where
  writes : List (Int × Int × RChar)
  fb : FrameBuffer

/-- `FrameBuffer.render` (lines 161-187): bail out when no dirty regions are
recorded; otherwise write every cell of `current_frame` that differs from
`previous_frame`, copy `current_frame` into `previous_frame` cell by cell
(the grids always have identical `height × width` shape, so the copy loop
equals wholesale replacement), and clear the dirty set. -/
def FrameBuffer.render (fb : FrameBuffer) : RenderOutput :=
  if fb.dirty_regions = ∅ then ⟨[], fb⟩
  else
    let writes := (List.range fb.height.toNat).flatMap (fun y =>
      (List.range fb.width.toNat).filterMap (fun x =>
        match getCell fb.current_frame y x, getCell fb.previous_frame y x with
        | some c, some p => if c ≠ p then some ((x : Int) + 1, (y : Int) + 1, c) else none
        | _, _ => none))
    ⟨writes, { fb with previous_frame := fb.current_frame, dirty_regions := ∅ }⟩

/-- `RenderNode` (lines 16-67). The `parent` back-reference is represented
implicitly: absolute regions (`get_absolute_region`, the sum of the
ancestors' offsets) are computed top-down during traversal. -/
inductive RenderNode where
  | mk (id : String) (region : Region) (content : List (List RChar))
       (z_index : Int) (visible : Bool) (dirty : Bool) (clip_to_parent : Bool)
       (children : List RenderNode)

def RenderNode.id : RenderNode → String
  | .mk i _ _ _ _ _ _ _ => i

def RenderNode.region : RenderNode → Region
  | .mk _ r _ _ _ _ _ _ => r

def RenderNode.content : RenderNode → List (List RChar)
  | .mk _ _ c _ _ _ _ _ => c

def RenderNode.z_index : RenderNode → Int
  | .mk _ _ _ z _ _ _ _ => z

def RenderNode.visible : RenderNode → Bool
  | .mk _ _ _ _ v _ _ _ => v

def RenderNode.dirty : RenderNode → Bool
  | .mk _ _ _ _ _ d _ _ => d

def RenderNode.clip_to_parent : RenderNode → Bool
  | .mk _ _ _ _ _ _ c _ => c

def RenderNode.children : RenderNode → List RenderNode
  | .mk _ _ _ _ _ _ _ cs => cs

/-- Stable ascending insertion sort. Python's `sorted` / `list.sort` is a
stable sort, and the output of a stable sort under a total preorder is
unique, so this is the same function; insertion sort is structurally
recursive, which lets concrete runs evaluate inside the kernel. -/
def stableInsert (le : α → α → Bool) (x : α) : List α → List α
  | [] => [x]
  | y :: ys => if le y x then y :: stableInsert le x ys else x :: y :: ys

def stableSort (le : α → α → Bool) (l : List α) : List α :=
  l.foldl (fun acc x => stableInsert le x acc) []

/-- `sorted(node.children, key=lambda n: n.z_index)`: a stable sort on the
z-index, applied here to the pre-computed traversal blocks of each child
(equivalent to sorting the children first, since flattening is per
child). -/
def sortBlocks (l : List (Int × List (RenderNode × Region))) :
    List (Int × List (RenderNode × Region)) :=
  stableSort (fun a b => a.1 ≤ b.1) l

/-- `RenderTree.traverse_visible_nodes` (lines 232-247) combined with
`RenderNode.get_absolute_region` (lines 49-60): collect every visible
non-root node in render order (children sorted by `z_index`; children of an
invisible node are still traversed), pairing each node with its absolute
region. -/
def RenderNode.flattenVisible : Nat → Bool → Int × Int →
    RenderNode → List (RenderNode × Region)
  | 0, _, _, _ => []
  | fuel + 1, isRoot, off, .mk i region content z vis dirty clip children =>
    let abs : Region := ⟨off.1 + region.x, off.2 + region.y, region.width, region.height⟩
    let blocks := children.map (fun c =>
      (c.z_index, RenderNode.flattenVisible fuel false (abs.x, abs.y) c))
    (if vis ∧ ¬isRoot then
        [(RenderNode.mk i region content z vis dirty clip children, abs)]
      else []) ++ (sortBlocks blocks).flatMap Prod.snd

/-- `Renderer.update_renderable`-style per-id node update used by the
`render_frame` update loop: `RenderTree.nodes` maps each id to the unique
node carrying it, so applying the updater to every node with that id is the
dictionary lookup. Only dirty nodes are updated (`if node and node.dirty`).
-/
def RenderNode.updateById (upd : String → RenderNode → RenderNode) :
    Nat → String → RenderNode → RenderNode
  | 0, _, n => n
  | fuel + 1, target, .mk i region content z vis dirty clip children =>
    let n := RenderNode.mk i region content z vis dirty clip
      (children.map (fun c => RenderNode.updateById upd fuel target c))
    if n.id = target ∧ n.dirty then upd target n else n

/-- After the draw loop of `Renderer.render_frame`, every traversed node that
was drawn (`node.dirty and node.content`) has had `node.dirty = False`
assigned; the root is never in the traversal. -/
def RenderNode.clearDrawnDirty : Nat → Bool → RenderNode → RenderNode
  | 0, _, n => n
  | fuel + 1, isRoot, .mk i region content z vis dirty clip children =>
    let dirty' := if vis ∧ ¬isRoot ∧ dirty ∧ content ≠ [] then false else dirty
    RenderNode.mk i region content z vis dirty' clip
      (children.map (fun c => RenderNode.clearDrawnDirty fuel false c))

/-- `Renderer` state (lines 255-263): the frame buffer, the render tree's
root (`RenderTree.__init__` gives it id `"root"` and region
`Region(0, 0, 1, 1)`), and the insertion-ordered ids of the registered
renderables. -/
structure Renderer where
  width : Int
  height : Int
  frame_buffer : FrameBuffer
  tree_root : RenderNode
  tree_ids : List String
  renderable_ids : List String

/-- `Renderer.__init__` for a terminal of the given size (`tree_ids` mirrors
the keys of `RenderTree.nodes`, `renderable_ids` the keys of
`Renderer.renderables`, both in insertion order). -/
def Renderer.init (width height : Int) : Renderer :=
  { width := width
    height := height
    frame_buffer := FrameBuffer.init width height
    tree_root := RenderNode.mk "root" ⟨0, 0, 1, 1⟩ [] 0 true true true []
    tree_ids := ["root"]
    renderable_ids := [] }

/-- `Renderer.register_renderable` with the default `parent_id="root"`:
`RenderTree.add_node` rejects an id already in `RenderTree.nodes` with
`ValueError`, otherwise appends the renderable's initial node under the
root, and the renderable is recorded in the `renderables` dict. -/
def Renderer.register_renderable (r : Renderer) (node : RenderNode) : Option Renderer :=
  if node.id ∈ r.tree_ids then none
  else some { r with
    tree_root := RenderNode.mk r.tree_root.id r.tree_root.region r.tree_root.content
      r.tree_root.z_index r.tree_root.visible r.tree_root.dirty r.tree_root.clip_to_parent
      (r.tree_root.children ++ [node])
    tree_ids := r.tree_ids ++ [node.id]
    renderable_ids := r.renderable_ids ++ [node.id] }

structure FrameResult where
  writes : List (Int × Int × RChar)
  renderer : Renderer

/-- `Renderer.render_frame` (lines 300-320) with `resize_if_needed`
(lines 267-275). The physical terminal size and the registered renderables'
`update_render_node` methods are external collaborators and are passed in:
`terminal` is what `get_terminal_size()` reports, and `upd id node` is the
node state `renderables[id].update_render_node(node)` leaves behind.
`fuel` bounds the depth of the render-tree recursions (as for the DOM
arena walk); any value at least the tree height is exact. -/
def Renderer.render_frame (fuel : Nat) (r : Renderer) (terminal : Int × Int)
    (upd : String → RenderNode → RenderNode) : FrameResult :=
  let r1 :=
    if terminal.1 ≠ r.width ∨ terminal.2 ≠ r.height then
      { r with width := terminal.1, height := terminal.2
               frame_buffer := r.frame_buffer.resize terminal.1 terminal.2
               tree_root := RenderNode.mk r.tree_root.id
                 ⟨r.tree_root.region.x, r.tree_root.region.y, terminal.1, terminal.2⟩
                 r.tree_root.content r.tree_root.z_index r.tree_root.visible
                 r.tree_root.dirty r.tree_root.clip_to_parent r.tree_root.children }
    else r
  let root1 := r1.renderable_ids.foldl
    (fun acc i => RenderNode.updateById upd fuel i acc) r1.tree_root
  let fb1 := r1.frame_buffer.clear
  let nodes := RenderNode.flattenVisible fuel true (0, 0) root1
  let fb2 := nodes.foldl (fun acc p =>
    if p.1.dirty ∧ p.1.content ≠ [] then
      acc.draw_content p.2 p.1.content p.1.clip_to_parent
    else acc) fb1
  let root2 := RenderNode.clearDrawnDirty fuel true root1
  let out := fb2.render
  ⟨out.writes, { r1 with frame_buffer := out.fb, tree_root := root2 }⟩

/-! ## Event model (src/termui/events.py, src/termui/messages.py)

`events.MouseEvent` is a dataclass whose declared field order is
`(x, y, button, widget)`; its `__init__` binds arguments positionally in
that order with no runtime type checking, so a slot can hold a value of any
runtime type. Slots are therefore modelled with the dynamic sum `PyVal`
(`None` or a number; `int` and `float` collapse into `ℚ`, exact for every
operation performed on them here).

`termui/message.py` (class `Message`, the common base of events and
messages) and the `events.Paste` class (constructed by the parser but absent
from `events.py`) are not under `src/`; `Msg.paste` is modelled from the
spec: "a single `Paste` event is emitted with embedded NUL bytes stripped",
carrying `Paste{ text }`. -/

inductive PyVal
  | none
  | num (q : ℚ)
deriving Repr, DecidableEq

/-- Python truthiness of an event's `button` slot (`if message.button:`). -/
def PyVal.truthy : PyVal → Bool
  | .none => false
  | .num q => q ≠ 0

/-- Python `-` on slot values: defined on numbers, `TypeError` otherwise. -/
inductive PyError
  | typeError (message : String)
deriving Repr, DecidableEq

def PyVal.sub : PyVal → PyVal → Except PyError PyVal
  | .num a, .num b => .ok (.num (a - b))
  | _, _ => .error (.typeError "unsupported operand type(s) for -")

/-- `Size` (src/termui/geometry.py; `utils/geometry.py`, from which the
parser imports it, is not under src/ — the fields there are the same
`(cols, rows)` pair, cf. `Resize.from_dimensions`). -/
structure Size where
  cols : Int
  rows : Int
deriving Repr, DecidableEq

structure MouseEventData where
  x : PyVal
  y : PyVal
  button : PyVal
  widget : PyVal
deriving Repr, DecidableEq

/-- The dataclass `__init__` generated for `events.MouseEvent`
(events.py lines 84-104): four parameters bound positionally to the declared
fields `(x, y, button, widget)`. -/
def mouseEventInit (a1 a2 a3 a4 : PyVal) : MouseEventData :=
  ⟨a1, a2, a3, a4⟩

inductive MouseKind
  | move | drag | down | up | scrollUp | scrollDown | scrollLeft | scrollRight
deriving Repr, DecidableEq

/-- `events.Key`: `(key, character=None)`. -/
structure KeyEv where
  key : String
  character : Option String
deriving Repr, DecidableEq

inductive Msg
  | key (k : KeyEv)
  | mouse (kind : MouseKind) (data : MouseEventData)
  | paste (text : String)
  | cursorPosition (x y : Int)
  | resize (size : Size) (pixel_size : Option Size)
  | terminalSupportsSynchronizedOutput
  | inBandWindowResize (supported enabled : Bool)
deriving Repr, DecidableEq

/-! ## Driver (src/termui/_driver.py) -/

/-- The mouse-state part of `Driver.__init__` (lines 35-37):
`_down_buttons`, `_last_move_event`, `_cursor_origin`. -/
structure DriverState where
  down_buttons : List PyVal
  last_move_event : Option MouseEventData
  cursor_origin : Option (Int × Int)
deriving Repr, DecidableEq

def driverInit : DriverState := ⟨[], none, none⟩

/-- `list(dict.fromkeys(self._down_buttons).keys())`: deduplicate preserving
first-occurrence order. -/
def dedupPreservingOrder (l : List PyVal) : List PyVal :=
  l.foldl (fun acc b => if b ∈ acc then acc else acc ++ [b]) []

/-- The constructor call
`events.MouseUp(message.widget, move_event.x, move_event.y, button=button)`
(driver lines 124-131). The dataclass `__init__` of the repo's
`events.MouseEvent` is `(x, y, button=None, widget=None)`, so the third
positional argument `move_event.y` already binds `button`, and the keyword
argument makes Python raise `TypeError` before any event exists. -/
def mouseUpDriverCall (_widget _x _y _button : PyVal) : Except PyError MouseEventData :=
  .error (.typeError "MouseUp() got multiple values for argument 'button'")

/-- Outcome of one `Driver.process_message` call: the messages passed to
`send_message` in order, the driver state after the call, and the exception
that aborted it, if any (mutations made before the raise stay visible). -/
structure ProcResult where
  sent : List Msg
  state : DriverState
  error : Option PyError
deriving Repr, DecidableEq

/-- `Driver.process_message` (lines 92-134): shift mouse coordinates by the
cursor origin, track pressed buttons on `MouseDown`/`MouseUp`, and on a
buttonless `MouseMove` arriving while buttons are recorded down — provided a
previous move event exists — deduplicate the stale buttons, clear the list
and synthesize a `MouseUp` per button at the previous move's coordinates
before forwarding the move. -/
def Driver.process_message (st : DriverState) (message : Msg) : ProcResult :=
  let offset : Int × Int := match st.cursor_origin with
    | none => (0, 0)
    | some o => o
  match message with
  | .mouse kind d =>
    match d.x.sub (.num offset.1), d.y.sub (.num offset.2) with
    | .ok x', .ok y' =>
      let d' : MouseEventData := { d with x := x', y := y' }
      match kind with
      | .down =>
        let st1 := if d'.button.truthy then
            { st with down_buttons := st.down_buttons ++ [d'.button] }
          else st
        ⟨[.mouse .down d'], st1, none⟩
      | .up =>
        let st1 := if d'.button.truthy ∧ d'.button ∈ st.down_buttons then
            { st with down_buttons := st.down_buttons.erase d'.button }
          else st
        ⟨[.mouse .up d'], st1, none⟩
      | .move =>
        match st.last_move_event with
        | some move_event =>
          if st.down_buttons ≠ [] ∧ ¬d'.button.truthy then
            let buttons := dedupPreservingOrder st.down_buttons
            let st1 := { st with down_buttons := [] }
            match buttons.foldlM (fun acc b =>
                (mouseUpDriverCall d'.widget move_event.x move_event.y b).map
                  (fun ev => acc ++ [Msg.mouse .up ev])) ([] : List Msg) with
            | .error e => ⟨[], st1, some e⟩
            | .ok ups =>
              ⟨ups ++ [.mouse .move d'],
               { st1 with last_move_event := some d' }, none⟩
          else
            ⟨[.mouse .move d'], { st with last_move_event := some d' }, none⟩
        | none =>
          ⟨[.mouse .move d'], { st with last_move_event := some d' }, none⟩
      | k => ⟨[.mouse k d'], st, none⟩
    | _, _ => ⟨[], st, some (.typeError "unsupported operand type(s) for -")⟩
  | m => ⟨[m], st, none⟩

/-! ## Key tables (src/termui/keys.py) -/

/-- `FUNCTIONAL_KEYS` from src/termui/keys.py, verbatim. -/
def FUNCTIONAL_KEYS : List (String × String) :=
  [("27u", "escape"), ("13u", "enter"), ("9u", "tab"), ("127u", "backspace"),
   ("2~", "insert"), ("3~", "delete"), ("1D", "left"), ("1C", "right"),
   ("1A", "up"), ("1B", "down"), ("5~", "pageup"), ("6~", "pagedown"),
   ("1H", "home"), ("1~", "home"), ("7~", "home"), ("1F", "end"),
   ("4~", "end"), ("8~", "end"), ("57358u", "caps_lock"),
   ("57359u", "scroll_lock"), ("57360u", "num_lock"),
   ("57361u", "print_screen"), ("57362u", "pause"), ("57363u", "menu"),
   ("1P", "f1"), ("11~", "f1"), ("1Q", "f2"), ("12~", "f2"), ("13~", "f3"),
   ("1R", "f3"), ("1S", "f4"), ("14~", "f4"), ("15~", "f5"), ("17~", "f6"),
   ("18~", "f7"), ("19~", "f8"), ("20~", "f9"), ("21~", "f10"),
   ("23~", "f11"), ("24~", "f12"), ("57376u", "f13"), ("57377u", "f14"),
   ("57378u", "f15"), ("57379u", "f16"), ("57380u", "f17"),
   ("57381u", "f18"), ("57382u", "f19"), ("57383u", "f20"),
   ("57384u", "f21"), ("57385u", "f22"), ("57386u", "f23"),
   ("57387u", "f24"), ("57388u", "f25"), ("57389u", "f26"),
   ("57390u", "f27"), ("57391u", "f28"), ("57392u", "f29"),
   ("57393u", "f30"), ("57394u", "f31"), ("57395u", "f32"),
   ("57396u", "f33"), ("57397u", "f34"), ("57398u", "f35"),
   ("57399u", "0"), ("57400u", "1"), ("57401u", "2"), ("57402u", "3"),
   ("57403u", "4"), ("57404u", "5"), ("57405u", "6"), ("57406u", "7"),
   ("57407u", "8"), ("57408u", "9"), ("57409u", "decimal"),
   ("57410u", "divide"), ("57411u", "multiply"), ("57412u", "subtract"),
   ("57413u", "add"), ("57414u", "enter"), ("57415u", "equal"),
   ("57416u", "separator"), ("57417u", "left"), ("57418u", "right"),
   ("57419u", "up"), ("57420u", "down"), ("57421u", "pageup"),
   ("57422u", "pagedown"), ("57423u", "home"), ("57424u", "end"),
   ("57425u", "insert"), ("57426u", "delete"), ("1E", "kp_begin"),
   ("57427~", "kp_begin"), ("57428u", "media_play"),
   ("57429u", "media_pause"), ("57430u", "media_play_pause"),
   ("57431u", "media_reverse"), ("57432u", "media_stop"),
   ("57433u", "media_fast_forward"), ("57434u", "media_rewind"),
   ("57435u", "media_track_next"), ("57436u", "media_track_previous"),
   ("57437u", "media_record"), ("57438u", "lower_volume"),
   ("57439u", "raise_volume"), ("57440u", "mute_volume"),
   ("57441u", "left_shift"), ("57442u", "left_control"),
   ("57443u", "left_alt"), ("57444u", "left_super"),
   ("57445u", "left_hyper"), ("57446u", "left_meta"),
   ("57447u", "right_shift"), ("57448u", "right_control"),
   ("57449u", "right_alt"), ("57450u", "right_super"),
   ("57451u", "right_hyper"), ("57452u", "right_meta"),
   ("57453u", "iso_level3_shift"), ("57454u", "iso_level5_shift")]

/-- `KEY_NAME_REPLACEMENTS` from src/termui/keys.py. -/
def KEY_NAME_REPLACEMENTS : List (String × String) :=
  [("solidus", "slash"), ("reverse_solidus", "backslash"),
   ("commercial_at", "at"), ("hyphen_minus", "minus"),
   ("plus_sign", "plus"), ("low_line", "underscore")]

/-- `ASCII_KEY_NAMES` from src/termui/keys.py. -/
def ASCII_KEY_NAMES : List (Char × String) := [('\t', "tab")]

/-- Modelled from the spec: `unicodedata.name` (Python standard library,
external to the repository; the spec calls this step the
"punctuation-to-Unicode-name mapping"). The table lists the Unicode
character names for the printable ASCII non-alphanumeric characters, the
only ones any property in this file evaluates; for every other character
(in particular control characters) the Python call raises `ValueError`,
modelled as `none`. -/
def unicodedataName? (c : Char) : Option String :=
  if c = ' ' then some "SPACE"
  else if c = '!' then some "EXCLAMATION MARK"
  else if c = '"' then some "QUOTATION MARK"
  else if c = '#' then some "NUMBER SIGN"
  else if c = '$' then some "DOLLAR SIGN"
  else if c = '%' then some "PERCENT SIGN"
  else if c = '&' then some "AMPERSAND"
  else if c = '\x27' then some "APOSTROPHE"
  else if c = '(' then some "LEFT PARENTHESIS"
  else if c = ')' then some "RIGHT PARENTHESIS"
  else if c = '*' then some "ASTERISK"
  else if c = '+' then some "PLUS SIGN"
  else if c = ',' then some "COMMA"
  else if c = '-' then some "HYPHEN-MINUS"
  else if c = '.' then some "FULL STOP"
  else if c = '/' then some "SOLIDUS"
  else if c = ':' then some "COLON"
  else if c = ';' then some "SEMICOLON"
  else if c = '<' then some "LESS-THAN SIGN"
  else if c = '=' then some "EQUALS SIGN"
  else if c = '>' then some "GREATER-THAN SIGN"
  else if c = '?' then some "QUESTION MARK"
  else if c = '@' then some "COMMERCIAL AT"
  else if c = '[' then some "LEFT SQUARE BRACKET"
  else if c = '\\' then some "REVERSE SOLIDUS"
  else if c = ']' then some "RIGHT SQUARE BRACKET"
  else if c = '^' then some "CIRCUMFLEX ACCENT"
  else if c = '_' then some "LOW LINE"
  else if c = '\x60' then some "GRAVE ACCENT"
  else if c = '\x7b' then some "LEFT CURLY BRACKET"
  else if c = '|' then some "VERTICAL LINE"
  else if c = '\x7d' then some "RIGHT CURLY BRACKET"
  else if c = '~' then some "TILDE"
  else none

/-- Python's `str.isalnum` for the characters this file evaluates (ASCII);
the Unicode-letter cases never arise here. -/
def pyIsAlnum (c : Char) : Bool := c.isAlphanum

/-- `_character_to_key` from src/termui/keys.py (lines 442-457):
non-alphanumeric characters map through their lower-cased, underscored
Unicode name, falling back to `ASCII_KEY_NAMES` and finally the character
itself; the result goes through `KEY_NAME_REPLACEMENTS`. -/
def _character_to_key (character : Char) : String :=
  let key :=
    if ¬ pyIsAlnum character then
      match unicodedataName? character with
      | some nm => ((nm.toLower).replace "-" "_").replace " " "_"
      | none =>
        match ASCII_KEY_NAMES.lookup character with
        | some k => k
        | none => String.singleton character
    else String.singleton character
  match KEY_NAME_REPLACEMENTS.lookup key with
  | some k => k
  | none => key

/-- The ignore / substitute / key-tuple values of the legacy ANSI table. -/
inductive AnsiMapping
  | ignoreSeq
  | substitute (s : String)
  | keyNames (ks : List String)
deriving Repr, DecidableEq

/-- Modelled from the spec: `ANSI_SEQUENCES_KEYS` lives in `termui/_ansi.py`,
which is imported by `_xterm_parser.py` but is not under `src/`. Per spec
§4.1 recognizer 5 it is "a static mapping from exact escape strings to one
of: an ignore-sequence marker, a single substitute character, or a tuple of
key names". The lone-ESC entry is required by the reissue logic (which
rewrites a reissued `escape` key to `circumflex_accent`); no key of the
real table — and no escape string the spec enumerates — is a proper prefix
of an SGR mouse report `ESC[<...`, and no property below depends on any
further entry. -/
def ANSI_SEQUENCES_KEYS : List (String × AnsiMapping) :=
  [("\x1b", .keyNames ["escape"])]

/-! ## Escape-sequence recognizers (the compiled regexes of
src/termui/_xterm_parser.py, as decision procedures on character lists) -/

def takeDigits (l : List Char) : List Char × List Char :=
  (l.takeWhile Char.isDigit, l.dropWhile Char.isDigit)

def digitsVal (ds : List Char) : Nat :=
  ds.foldl (fun n c => 10 * n + (c.toNat - '0'.toNat)) 0

/-- `-?\d+` at the front of the list. -/
def takeSignedInt? (l : List Char) : Option (Int × List Char) :=
  match l with
  | '-' :: r =>
    let (d, r') := takeDigits r
    if d = [] then none else some (-(digitsVal d : Int), r')
  | r =>
    let (d, r') := takeDigits r
    if d = [] then none else some ((digitsVal d : Int), r')

/-- `_re_mouse_event = ^\x1b\[(<?[-\d;]+[mM]|M...)\Z` used with `.match`:
an anchored whole-string test. -/
def mouseEventMatches (s : List Char) : Bool :=
  match s with
  | '\x1b' :: '[' :: rest =>
    (let body := match rest with
      | '<' :: r => r
      | r => r
     decide (body.length ≥ 2) &&
       body.dropLast.all (fun c => c = '-' || c.isDigit || c = ';') &&
       (body.getLast? = some 'm' || body.getLast? = some 'M'))
    || (match rest with
       | 'M' :: t => decide (t.length = 3) && t.all (fun c => c ≠ '\n')
       | _ => false)
  | _ => false

/-- `XTermParser._re_sgr_mouse = \x1b\[<(\d+);(-?\d+);(-?\d+)([Mm])` used
with `.match` (prefix match): yields `(buttons, x, y, state)`. -/
def sgrMouseMatch? (s : List Char) : Option (Nat × Int × Int × Char) :=
  match s with
  | '\x1b' :: '[' :: '<' :: r =>
    let (d1, r1) := takeDigits r
    if d1 = [] then none
    else match r1 with
      | ';' :: r2 =>
        match takeSignedInt? r2 with
        | none => none
        | some (x, r3) =>
          match r3 with
          | ';' :: r4 =>
            match takeSignedInt? r4 with
            | none => none
            | some (y, r5) =>
              match r5 with
              | 'M' :: _ => some (digitsVal d1, x, y, 'M')
              | 'm' :: _ => some (digitsVal d1, x, y, 'm')
              | _ => none
          | _ => none
      | _ => none
  | _ => none

/-- `_re_cursor_position = \x1b\[(?P<row>\d+);(?P<col>\d+)R` used with
`.match` (prefix match): yields `(row, col)`. -/
def cursorPositionMatch? (s : List Char) : Option (Nat × Nat) :=
  match s with
  | '\x1b' :: '[' :: r =>
    let (d1, r1) := takeDigits r
    if d1 = [] then none
    else match r1 with
      | ';' :: r2 =>
        let (d2, r3) := takeDigits r2
        if d2 = [] then none
        else match r3 with
          | 'R' :: _ => some (digitsVal d1, digitsVal d2)
          | _ => none
      | _ => none
  | _ => none

def isExtTerminator (c : Char) : Bool :=
  c = 'u' ∨ c = '~' ∨ c = 'A' ∨ c = 'B' ∨ c = 'C' ∨ c = 'D' ∨ c = 'E' ∨
    c = 'F' ∨ c = 'H' ∨ c = 'P' ∨ c = 'Q' ∨ c = 'R' ∨ c = 'S'

/-- `_re_extended_key = \x1b\[(?:(\d+)(?:;(\d+))?)?([u~ABCDEFHPQRS])` used
with `.fullmatch`: yields `(number?, modifiers?, terminator)`. The
terminator class contains no digit and no `;`, so the backtracking search is
the deterministic parse below. -/
def extendedKeyMatch? (s : List Char) :
    Option (Option (List Char) × Option (List Char) × Char) :=
  match s with
  | '\x1b' :: '[' :: r =>
    let (d1, r1) := takeDigits r
    if d1 = [] then
      match r with
      | [c] => if isExtTerminator c then some (none, none, c) else none
      | _ => none
    else
      match r1 with
      | ';' :: r2 =>
        let (d2, r3) := takeDigits r2
        if d2 = [] then none
        else match r3 with
          | [c] => if isExtTerminator c then some (some d1, some d2, c) else none
          | _ => none
      | [c] => if isExtTerminator c then some (some d1, none, c) else none
      | _ => none
  | _ => none

/-- `_re_terminal_mode_response = ^\x1b\[\?(?P<mode_id>\d+);(?P<setting_parameter>\d)\$y`
used with `.match` (prefix match): yields `(mode_id digits, parameter)`. -/
def terminalModeMatch? (s : List Char) : Option (List Char × Nat) :=
  match s with
  | '\x1b' :: '[' :: '?' :: r =>
    let (d1, r1) := takeDigits r
    if d1 = [] then none
    else match r1 with
      | ';' :: d :: '$' :: 'y' :: _ =>
        if d.isDigit then some (d1, d.toNat - '0'.toNat) else none
      | _ => none
  | _ => none

/-- The alternatives for one group `\d+(?:\:.*?)?` of
`_re_in_band_window_resize`, in the engine's preference order: the greedy
`\d+` tries the longest digit run first; the greedy optional `(?:...)?`
tries the colon part (with lazy `.*?`, shortest first, never matching a
newline) before skipping it. -/
def inBandGroupAlts (l : List Char) : List (List Char × List Char) :=
  let ds := l.takeWhile Char.isDigit
  (List.range ds.length).flatMap (fun k =>
    let n := ds.length - k
    let d := ds.take n
    let rest := l.drop n
    (match rest with
      | ':' :: r2 =>
        (List.range (r2.length + 1)).filterMap (fun m =>
          let mid := r2.take m
          if mid.all (fun c => c ≠ '\n') then some (d ++ ':' :: mid, r2.drop m)
          else none)
      | _ => []) ++ [(d, rest)])

/-- `_re_in_band_window_resize =
\x1b\[48;(\d+(?:\:.*?)?);(\d+(?:\:.*?)?);(\d+(?:\:.*?)?);(\d+(?:\:.*?)?)t`
used with `.fullmatch`: yields the four captured groups. -/
def inBandResizeMatch? (s : List Char) :
    Option (List Char × List Char × List Char × List Char) :=
  match s with
  | '\x1b' :: '[' :: '4' :: '8' :: ';' :: r =>
    (inBandGroupAlts r).findSome? (fun p1 =>
      match p1.2 with
      | ';' :: r2 => (inBandGroupAlts r2).findSome? (fun p2 =>
          match p2.2 with
          | ';' :: r3 => (inBandGroupAlts r3).findSome? (fun p3 =>
              match p3.2 with
              | ';' :: r4 => (inBandGroupAlts r4).findSome? (fun p4 =>
                  match p4.2 with
                  | ['t'] => some (p1.1, p2.1, p3.1, p4.1)
                  | _ => none)
              | _ => none)
          | _ => none)
      | _ => none)
  | _ => none

/-! ## XTermParser (src/termui/_xterm_parser.py)

The generator `XTermParser.parse` is embedded as an explicit state machine:
a machine state records where the coroutine is suspended (`ParserMode`)
together with the generator locals (`bracketed_paste`, `paste_buffer`) and
the parser-object attributes (`mouse_pixels`, `terminal_size`,
`terminal_pixel_size`, `last_x`, `last_y`); `resume` runs the coroutine from
its suspension point on one stimulus — a character sent by `Parser.feed`, a
thrown `ParseTimeout`, or a thrown `ParseEOF` — until the next `yield` or
its `return`, collecting the tokens reported on the way. -/

/-- `_MAX_SEQUENCE_SEARCH_THRESHOLD`. -/
def _MAX_SEQUENCE_SEARCH_THRESHOLD : Nat := 32

def BRACKETED_PASTE_START : String := "\x1b[200~"
def BRACKETED_PASTE_END : String := "\x1b[201~"
def FOCUSIN : String := "\x1b[I"
def FOCUSOUT : String := "\x1b[O"

/-- `IS_ITERM` reads `LC_TERMINAL` / `TERM_PROGRAM` at import time; the
modelled environment does not set them. -/
def IS_ITERM : Bool := false

/-- `ESCAPE_DELAY` (src/termui/constants.py line 62) with `ESCDELAY` unset:
`100 / 1000.0` seconds. -/
def ESCAPE_DELAY : ℚ := 100 / 1000

/-- `MODIFIERS` of `_sequence_to_key_events`, indexed by bit. -/
def MODIFIERS : List String := ["shift", "alt", "ctrl", "super", "hyper", "meta"]

/-- `chr(n)` restricted to the scalar values a Lean `Char` can carry; Python
additionally accepts lone surrogates, which no property in this file
reaches. -/
def chrPy? (n : Nat) : Option Char :=
  if n < 0xd800 ∨ (0xdfff < n ∧ n < 0x110000) then some (Char.ofNat n) else none

/-- `XTermParser._sequence_to_key_events` (lines 431-496). -/
def _sequence_to_key_events (s : List Char) : List KeyEv :=
  match extendedKeyMatch? s with
  | some (num?, mod?, endc) =>
    let number : String := match num? with
      | some d => String.mk d
      | none => "1"
    let key : String :=
      match FUNCTIONAL_KEYS.lookup (number ++ String.singleton endc) with
      | some k => k
      | none =>
        match chrPy? (digitsVal number.data) with
        | some c => _character_to_key c
        -- Python raises on an out-of-range ordinal (in the fallback too);
        -- unreachable for every sequence this file evaluates
        | none => ""
    let key_tokens : List String :=
      match mod? with
      | some mods =>
        -- `modifier_bits = int(modifiers) - 1`; for "0" this is -1, whose
        -- two's complement sets every bit
        let b := digitsVal mods
        if b = 0 then MODIFIERS
        else MODIFIERS.enum.filterMap (fun p =>
          if (b - 1).testBit p.1 then some p.2 else none)
      | none => []
    let sorted := stableSort (fun a b => decide ¬ (b < a)) key_tokens
    [⟨String.intercalate "+" (sorted ++ [key]),
      if s.length = 1 then some (String.mk s) else none⟩]
  | none =>
    match ANSI_SEQUENCES_KEYS.lookup (String.mk s) with
    | some .ignoreSeq => [⟨"<ignore>", some (String.mk s)⟩]
    | some (.keyNames ks) =>
      ks.map (fun k => ⟨k, if s.length = 1 then some (String.mk s) else none⟩)
    | other =>
      let s' : List Char := match other with
        | some (.substitute sub) => sub.data
        | _ => s
      match s' with
      | [c] =>
        -- the `try` body cannot raise here: `_character_to_key` is total
        let name := if ¬ pyIsAlnum c then _character_to_key c
          else String.singleton c
        let name2 := match KEY_NAME_REPLACEMENTS.lookup name with
          | some k => k
          | none => name
        [⟨name2, some (String.singleton c)⟩]
      | _ => []

/-- Where the `XTermParser.parse` coroutine is suspended: at the ground-state
`yield read1()`, at the in-sequence `yield read1(ESCAPE_DELAY)` with the
accumulated `sequence`, or returned. -/
inductive ParserMode
  | ground
  | inSequence (sequence : List Char)
  | finished
deriving Repr, DecidableEq

structure MachineState where
  mode : ParserMode
  bracketed_paste : Bool
  paste_buffer : List Char
  mouse_pixels : Bool
  terminal_size : Option Size
  terminal_pixel_size : Option Size
  last_x : ℚ
  last_y : ℚ
deriving Repr, DecidableEq

/-- The machine as `XTermParser.__init__` + the generator prologue leave it:
suspended at the first ground-state read. -/
def machineInit : MachineState := ⟨.ground, false, [], false, none, none, 0, 0⟩

/-- `XTermParser.parse_mouse_code` (lines 211-264). The event is built by
`event_class(None, x, y, button)`; the dataclass binds those four positional
arguments to the declared fields `(x, y, button, widget)` of
`events.MouseEvent` in that order. -/
def parse_mouse_code (ms : MachineState) (code : List Char) :
    MachineState × Option Msg :=
  match sgrMouseMatch? code with
  | none => (ms, none)
  | some (buttons, xi, yi, state) =>
    let x0 : ℚ := ((xi - 1 : Int) : ℚ)
    let y0 : ℚ := ((yi - 1 : Int) : ℚ)
    if x0 < 0 ∨ y0 < 0 then (ms, none)
    else
      let (x, y) :=
        match ms.mouse_pixels, ms.terminal_pixel_size, ms.terminal_size with
        | true, some ps, some ts =>
          (x0 / ((ps.cols : ℚ) / (ts.cols : ℚ)),
           y0 / ((ps.rows : ℚ) / (ts.rows : ℚ)))
        | _, _, _ => (x0, y0)
      let ms' := { ms with last_x := x, last_y := y }
      if buttons &&& 64 ≠ 0 then
        let kind := [MouseKind.scrollUp, .scrollDown, .scrollLeft,
          .scrollRight].getD (buttons &&& 3) .scrollUp
        (ms', some (.mouse kind (mouseEventInit .none (.num x) (.num y) (.num 0))))
      else
        let button : Nat := (buttons + 1) &&& 3
        let kind := if buttons &&& 32 ≠ 0 ∨ button = 0 then MouseKind.move
          else if state = 'M' then .down else .up
        (ms', some (.mouse kind
          (mouseEventInit .none (.num x) (.num y) (.num button))))

/-- `on_key_token` (lines 288-300): drop `Keys.Ignore` events. -/
def onKeyTokens (evs : List KeyEv) : List Msg :=
  evs.filterMap (fun e => if e.key = "<ignore>" then none else some (.key e))

/-- `reissue_sequence_as_keys` (lines 302-315): each character standalone,
with a decoded `escape` key replaced by `Key("circumflex_accent")`; this
path reports through `on_token`, so ignore keys are not filtered. -/
def reissue_sequence_as_keys (s : List Char) : List Msg :=
  s.flatMap (fun c =>
    (_sequence_to_key_events [c]).map (fun e =>
      if e.key = "escape" then Msg.key ⟨"circumflex_accent", none⟩
      else Msg.key e))

/-- `send_escape` (lines 342-345). -/
def send_escape (seq : List Char) : List Msg :=
  Msg.key ⟨"escape", some "\x1b"⟩ :: reissue_sequence_as_keys (seq.drop 1)

/-- The check at the top of the outer loop (lines 318-321): once bracketed
paste has ended with a non-empty buffer, emit one `Paste` event from the
buffer minus its final character (the ESC that started the end sequence),
with NUL bytes stripped, before the next read. -/
def flushPaste (ms : MachineState) : MachineState × List Msg :=
  if ¬ ms.bracketed_paste ∧ ms.paste_buffer ≠ [] then
    ({ ms with paste_buffer := [] },
     [.paste (String.mk (ms.paste_buffer.dropLast.filter (fun c => c ≠ '\x00')))])
  else (ms, [])

/-- Go back to the outer loop: set ground mode and run the loop-top paste
flush before the generator suspends again. -/
def backToGround (ms : MachineState) (evs : List Msg) : MachineState × List Msg :=
  let (ms1, flushEvs) := flushPaste { ms with mode := ParserMode.ground }
  (ms1, evs ++ flushEvs)

/-- The recognizer chain run after `sequence += new_character`
(lines 367-429). -/
def stepRecognizers (ms : MachineState) (seq' : List Char) :
    MachineState × List Msg :=
  let sStr := String.mk seq'
  if sStr = BRACKETED_PASTE_START ∨ sStr = BRACKETED_PASTE_END ∨
      sStr = FOCUSIN ∨ sStr = FOCUSOUT then
    let ms1 :=
      if sStr = BRACKETED_PASTE_START then { ms with bracketed_paste := true }
      else if sStr = BRACKETED_PASTE_END then { ms with bracketed_paste := false }
      else ms
    backToGround ms1 []
  else
    match inBandResizeMatch? seq' with
    | some (g1, g2, g3, _) =>
      let height : Int := digitsVal (g1.takeWhile (fun c => c ≠ ':'))
      let width : Int := digitsVal (g2.takeWhile (fun c => c ≠ ':'))
      let _ := g3
      -- events.Resize.from_dimensions((int(width), int(height)))
      let size : Size := ⟨width, height⟩
      let ms1 := { ms with
        terminal_size := some size
        terminal_pixel_size := none
        mouse_pixels := true }
      backToGround ms1 [.resize size none]
    | none =>
      if ¬ ms.bracketed_paste then
        match cursorPositionMatch? seq' with
        | some (row, col) =>
          backToGround ms [.cursorPosition ((col : Int) - 1) ((row : Int) - 1)]
        | none =>
          let key_events := _sequence_to_key_events seq'
          if key_events ≠ [] then
            backToGround ms (onKeyTokens key_events)
          else if mouseEventMatches seq' then
            -- mouse_match.group(0) is the whole sequence (the regex is
            -- anchored at both ends)
            let (ms1, ev?) := parse_mouse_code ms seq'
            backToGround ms1 ev?.toList
          else
            match terminalModeMatch? seq' with
            | some (mode_id, param) =>
              let evs : List Msg :=
                if mode_id = "2026".data ∧ param > 0 then
                  [.terminalSupportsSynchronizedOutput]
                else if mode_id = "2048".data ∧ ¬ IS_ITERM then
                  -- InBandWindowResize.from_setting_parameter
                  [.inBandWindowResize (¬ (param = 0 ∨ param = 4))
                    (param = 1 ∨ param = 3)]
                else []
              backToGround ms evs
            | none => ({ ms with mode := .inSequence seq' }, [])
      else ({ ms with mode := .inSequence seq' }, [])

/-- The stimuli `Parser.feed` / `Parser.tick` deliver to the generator. -/
inductive ParserInput
  | chr (c : Char)
  | timedOut
  | endOfInput

/-- Resume the `XTermParser.parse` coroutine (lines 266-429) at its current
suspension point and run it to the next suspension point (or its return),
returning the new state and the tokens reported in order. -/
def resume (ms : MachineState) (inp : ParserInput) : MachineState × List Msg :=
  match ms.mode, inp with
  | .finished, _ => (ms, [])
  -- a timeout cannot be pending at the untimed ground read (feed clears it)
  | .ground, .timedOut => (ms, [])
  | .ground, .endOfInput => ({ ms with mode := .finished }, [])
  | .ground, .chr c =>
    let ms1 := if ms.bracketed_paste then
        { ms with paste_buffer := ms.paste_buffer ++ [c] }
      else ms
    if c ≠ '\x1b' then
      let evs := if ¬ ms1.bracketed_paste then
          onKeyTokens (_sequence_to_key_events [c])
        else []
      backToGround ms1 evs
    else
      ({ ms1 with mode := .inSequence ['\x1b'] }, [])
  | .inSequence seq, .timedOut =>
    backToGround ms (send_escape seq)
  | .inSequence seq, .endOfInput =>
    ({ ms with mode := .finished }, send_escape seq)
  | .inSequence seq, .chr c =>
    if c = '\x1b' then
      -- escape-inside-escape: reissue, then `sequence = character` restarts
      -- accumulation from the new ESC without passing the outer loop top
      ({ ms with mode := .inSequence ['\x1b'] }, send_escape seq)
    else
      let seq' := seq ++ [c]
      if seq'.length > _MAX_SEQUENCE_SEARCH_THRESHOLD then
        backToGround ms (reissue_sequence_as_keys seq')
      else
        stepRecognizers ms seq'

/-! ## The `Parser` driver object (lines 91-176): `feed` and `tick` -/

/-- A raised `ParseError`. -/
structure ParseError where
  message : String
deriving Repr, DecidableEq

/-- `Parser` wrapper state: `_eof`, the suspended generator, and
`_timeout_time`. `_awaiting` is determined by the suspension point: the
ground read carries no timeout, the in-sequence read carries
`ESCAPE_DELAY`. -/
structure ParserState where
  machine : MachineState
  eofFlag : Bool
  timeout_time : Option ℚ
deriving Repr, DecidableEq

/-- The timeout of the `Read1` the generator is suspended on. -/
def awaitingTimeout (ms : MachineState) : Option ℚ :=
  match ms.mode with
  | .inSequence _ => some ESCAPE_DELAY
  | _ => none

/-- `Parser.__init__` + `XTermParser.__init__`. -/
def Parser.init : ParserState := ⟨machineInit, false, none⟩

/-- `Parser.is_eof`. -/
def Parser.is_eof (st : ParserState) : Bool := st.eofFlag

/-- The character loop of `Parser.feed` (lines 150-163): send each character
into the generator, draining reported tokens in order. (`XTermParser.parse`
only ever yields `Read1`, so the `Peek1` arm is dead code.) -/
def feedLoop (ms : MachineState) : List Char → List Msg × MachineState
  | [] => ([], ms)
  | c :: rest =>
    ((resume ms (.chr c)).2 ++ (feedLoop (resume ms (.chr c)).1 rest).1,
     (feedLoop (resume ms (.chr c)).1 rest).2)

/-- `Parser.feed` (lines 121-163) at time `now` (`get_time`). After eof every
call raises `ParseError("end of file reached")`; an empty string marks eof
and throws `ParseEOF` into the generator; otherwise the characters are sent
one by one, and `_timeout_time` ends up `None` or `now` plus the timeout of
the awaited read, according to the final suspension point. -/
def Parser.feed (st : ParserState) (now : ℚ) (data : List Char) :
    Except ParseError (List Msg × ParserState) :=
  if st.eofFlag then .error ⟨"end of file reached"⟩
  else match data with
  | [] =>
    .ok ((resume st.machine .endOfInput).2,
      ⟨(resume st.machine .endOfInput).1, true, st.timeout_time⟩)
  | _ :: _ =>
    .ok ((feedLoop st.machine data).1,
      ⟨(feedLoop st.machine data).2, false,
        (awaitingTimeout (feedLoop st.machine data).2).map (fun t => now + t)⟩)

/-- `Parser.tick` (lines 113-119) at time `now`: when the armed timeout has
expired, clear it and throw `ParseTimeout` into the generator, draining the
reported tokens. -/
def Parser.tick (st : ParserState) (now : ℚ) : List Msg × ParserState :=
  match st.timeout_time with
  | some tt =>
    if tt ≤ now then
      let (ms1, evs) := resume st.machine .timedOut
      (evs, ⟨ms1, st.eofFlag, none⟩)
    else ([], st)
  | none => ([], st)

/-- Feeding a string one character per `Parser.feed` call (all calls at the
same time `now`; no `tick` runs in between). -/
def Parser.feedEach (now : ℚ) : ParserState → List Char →
    Except ParseError (List Msg × ParserState)
  | st, [] => .ok ([], st)
  | st, c :: rest =>
    match Parser.feed st now [c] with
    | .error e => .error e
    | .ok (evs, st1) =>
      match Parser.feedEach now st1 rest with
      | .error e => .error e
      | .ok (evs2, st2) => .ok (evs ++ evs2, st2)

/-! ## Concrete states used by the evaluations below -/

/-- A 1×1 content cell. -/
def c2Cell : RChar := ⟨"X", none, none⟩

/-- The initial render node of a 1×1 renderable at the origin
(`RenderNode` defaults: `z_index=0`, `visible=True`, `dirty=True`,
`clip_to_parent=True`). -/
def c2Node : RenderNode := .mk "n" ⟨0, 0, 1, 1⟩ [] 0 true true true []

/-- A renderer for a 2×2 terminal with that one renderable registered. -/
def c2Renderer : Renderer :=
  ((Renderer.init 2 2).register_renderable c2Node).getD (Renderer.init 2 2)

/-- The renderable's `update_render_node`: deposit the cell as content,
touching nothing else (a well-behaved widget whose state never changes). -/
def c2Update : String → RenderNode → RenderNode := fun _ n =>
  .mk n.id n.region [[c2Cell]] n.z_index n.visible n.dirty n.clip_to_parent n.children

/-- A DOM tree holding `root` (address 0) with child `a` (address 1), plus a
detached two-node subtree `b` (address 2) with child node at address 3
whose id `"a"` duplicates the id already in the tree. -/
def c3Tree : DOMTree :=
  { arena := fun a =>
      if a = 0 then some ⟨"root", none, none, [1], true⟩
      else if a = 1 then some ⟨"a", none, some 0, [], true⟩
      else if a = 2 then some ⟨"b", none, none, [3], true⟩
      else if a = 3 then some ⟨"a", none, some 2, [], true⟩
      else none
    root := some 0
    nodes := {0, 1}
    nodes_by_id := fun s =>
      if s = "root" then some 0 else if s = "a" then some 1 else none
    nodes_by_name := fun s =>
      if s = "root" then some 0 else if s = "a" then some 1 else none
    layout_dirty := false }

/-- The successful state of an `AddResult`, if any. -/
def AddResult.okState? : AddResult → Option DOMTree
  | .ok t => some t
  | _ => none

/-- Inserting subtree 2 (ids `"b"`, `"a"`) under the root of `c3Tree`. -/
def c3Run : AddResult := DOMTree.add_node 10 c3Tree 0 2

/-- A three-node chain `root (0) → n (1) → c (2)`, every node carrying a
distinct id and name. -/
def c9Tree : DOMTree :=
  { arena := fun a =>
      if a = 0 then some ⟨"root", none, none, [1], true⟩
      else if a = 1 then some ⟨"n", some "nodeN", some 0, [2], true⟩
      else if a = 2 then some ⟨"c", some "nodeC", some 1, [], true⟩
      else none
    root := some 0
    nodes := {0, 1, 2}
    nodes_by_id := fun s =>
      if s = "root" then some 0 else if s = "n" then some 1
      else if s = "c" then some 2 else none
    nodes_by_name := fun s =>
      if s = "root" then some 0 else if s = "nodeN" then some 1
      else if s = "nodeC" then some 2 else none
    layout_dirty := false }

/-- A well-formed `MouseMove` at the origin, no button. -/
def c6Move1 : Msg := .mouse .move (mouseEventInit (.num 0) (.num 0) .none .none)

/-- A well-formed `MouseDown` at (1, 1) with button 1. -/
def c6Down : Msg := .mouse .down (mouseEventInit (.num 1) (.num 1) (.num 1) .none)

/-- A well-formed buttonless `MouseMove` at (2, 2). -/
def c6Move2 : Msg := .mouse .move (mouseEventInit (.num 2) (.num 2) .none .none)

def c6State1 : DriverState := (Driver.process_message driverInit c6Move1).state

def c6State2 : DriverState := (Driver.process_message c6State1 c6Down).state

/-- Processing the buttonless move while button 1 is recorded down and a
previous move exists. -/
def c6Result : ProcResult := Driver.process_message c6State2 c6Move2

/-- The wrapper state after feeding a lone ESC at time `now`: suspended
mid-sequence with the escape timeout armed. -/
def c5AfterEsc (now : ℚ) : ParserState :=
  ⟨⟨.inSequence ['\x1b'], false, [], false, none, none, 0, 0⟩, false,
    some (now + ESCAPE_DELAY)⟩

/-- Structural equality test for `Except` results. -/
instance exceptDecEq {ε α : Type} [DecidableEq ε] [DecidableEq α] :
    DecidableEq (Except ε α)
  | .ok a, .ok b => decidable_of_iff (a = b) (by simp)
  | .error a, .error b => decidable_of_iff (a = b) (by simp)
  | .ok _, .error _ => isFalse (by simp)
  | .error _, .ok _ => isFalse (by simp)

/-! ## Theorems -/

/-- C8: the claim says `Region(x, y, width, height)` fails with
`DimensionError` unless `width > 0` and `height > 0`. The `utils/geometry.py`
constructor — the variant that raises `DimensionError` — accepts
`Region(0, 0, 0, 0)`: its guard tests `width < 0 or height < 0`, although
its own error message demands positive dimensions; construction succeeds
exactly on non-negative arguments. The sibling `geometry.py` variant does
reject zero dimensions, but with `ValueError`. -/
theorem region_zero_dimensions_accepted :
    Region.mk? 0 0 0 0 = .ok ⟨0, 0, 0, 0⟩ ∧
    (∀ x y w h : Int,
      (Region.mk? x y w h).isOk = true ↔ (0 ≤ x ∧ 0 ≤ y ∧ 0 ≤ w ∧ 0 ≤ h)) ∧
    (GeometryRegion.mk? 0 0 0 0).isOk = false := by
  refine ⟨rfl, fun x y w h => ?_, by decide⟩
  unfold Region.mk?
  split_ifs with h1 h2
  · rcases h1 with h | h <;> simp [Except.isOk, Except.toBool] <;> omega
  · rcases h2 with h | h <;> simp [Except.isOk, Except.toBool] <;> omega
  · push_neg at h1 h2
    simp only [Except.isOk, Except.toBool, true_iff]
    omega

/-- C7: `Keybind.matches pressed` holds exactly when the pressed-key set
equals the set of tokens of the combo; in particular `{ctrl, c}` is matched
by neither the strict subset `{ctrl}` nor the strict superset
`{ctrl, shift, c}`, only by `{ctrl, c}` itself. -/
theorem keybind_matches_exact_set :
    (∀ (kb : Keybind) (pressed : Finset String),
        kb.matches pressed = true ↔ kb.parse_keybind.toFinset = pressed) ∧
    (Keybind.mk "ctrl+c" "" true).matches {"ctrl"} = false ∧
    (Keybind.mk "ctrl+c" "" true).matches {"ctrl", "shift", "c"} = false ∧
    (Keybind.mk "ctrl+c" "" true).matches {"ctrl", "c"} = true := by
  refine ⟨fun kb pressed => ?_, by decide, by decide, by decide⟩
  simp [Keybind.matches]

/-- C3 counterexample: the claim says `add_node` fails with `DuplicateId`
and leaves the tree unchanged whenever any id of the inserted subtree is
already present. Inserting subtree 2 of `c3Tree` — whose descendant
(address 3) carries the id `"a"` that address 1 already holds — does not
fail: it returns a mutated tree in which the lookup entry for `"a"` has
been overwritten to point at the new node. -/
theorem add_node_descendant_duplicate_accepted :
    c3Tree.nodes_by_id "a" = some 1 ∧
    c3Run.okState?.map (fun t => t.nodes_by_id "a") = some (some 3) ∧
    c3Run.okState?.map (fun t => t.nodes_by_id "b") = some (some 2) ∧
    c3Run.okState?.map (fun t => (t.arena 0).map (fun d => d.children)) =
      some (some [1, 2]) := by
  decide

/-- C3 amended: `add_node` raises the duplicate-id `ValueError` (the failure
the spec calls `DuplicateId`) precisely when the id of the inserted child
node itself is already a key of `nodes_by_id` — the check precedes every
mutation, so the tree is returned untouched in that case; duplicate ids
among the child's descendants are not checked. -/
theorem add_node_duplicate_check
    (t : DOMTree) (fuel : Nat) (parent child : Addr) (cd : DOMNodeData)
    (hc : t.arena child = some cd) :
    DOMTree.add_node fuel t parent child = .dup cd.id ↔
      (t.nodes_by_id cd.id).isSome = true := by
  unfold DOMTree.add_node
  rw [hc]
  by_cases h : (t.nodes_by_id cd.id).isSome = true
  · simp [h]
  · simp only [h, iff_false, if_false, Bool.false_eq_true]
    intro hEq
    revert hEq
    split
    · simp
    · split
      · simp
      · split <;> simp

/-- Witness for C3: address 1 of `c3Tree` holds id `"a"`, which is a key of
`nodes_by_id`, so inserting that node again is rejected with the
duplicate-id failure. -/
theorem add_node_duplicate_check_witness :
    DOMTree.add_node 10 c3Tree 0 1 = .dup "a" :=
  (add_node_duplicate_check c3Tree 10 0 1 ⟨"a", none, some 0, [], true⟩
    (by decide)).mpr (by decide)

/-- C9: `remove_node` on a tracked non-root node with children detaches the
node from its parent's child list and pops the node's own id and name keys
from the lookup dictionaries, but recurses into no child: every descendant
whose keys differ from the removed node's (as in any tree built with unique
ids and names) is still returned by `get_node_by_id` and `get_node_by_name`
afterwards. -/
theorem remove_node_leaves_descendants_indexed
    (t : DOMTree) (a p b : Addr) (nd pd bd : DOMNodeData)
    (hmem : a ∈ t.nodes) (ha : t.arena a = some nd)
    (hchildren : nd.children ≠ []) (hparent : nd.parent = some p)
    (hp : t.arena p = some pd) (hin : a ∈ pd.children) (hap : a ≠ p)
    (hdesc : DOMTree.IsDescendant t a b) (hb : t.arena b = some bd)
    (hid : bd.id ≠ nd.id) (hname : bd.nameKey ≠ nd.nameKey)
    (hbid : t.nodes_by_id bd.id = some b)
    (hbname : t.nodes_by_name bd.nameKey = some b) :
    (t.remove_node a).get_node_by_id bd.id = some b ∧
    (t.remove_node a).get_node_by_name bd.nameKey = some b ∧
    (t.remove_node a).nodes_by_id nd.id = none ∧
    (t.remove_node a).nodes_by_name nd.nameKey = none ∧
    ((t.remove_node a).arena p).map (fun d => d.children) =
      some (pd.children.erase a) := by
  have hpa : ¬ (p = a) := fun h => hap h.symm
  unfold DOMTree.remove_node DOMTree.get_node_by_id DOMTree.get_node_by_name
  rw [if_pos hmem, ha]
  simp only [DOMTree.setNode, hparent, hp, hin, if_true, ite_true, hpa,
    ite_false, if_false, hid, hname, if_neg, Option.map_some']
  simp [hid, hname, hbid, hbname, hpa]

/-- Witness for C9: removing node 1 (`"n"`) of the chain `c9Tree` leaves its
child 2 (`"c"`) reachable by id and by name, while node 1 itself is purged
and the root's child list loses it. -/
theorem remove_node_leaves_descendants_indexed_witness :
    (c9Tree.remove_node 1).get_node_by_id "c" = some 2 ∧
    (c9Tree.remove_node 1).get_node_by_name "nodeC" = some 2 ∧
    (c9Tree.remove_node 1).nodes_by_id "n" = none ∧
    (c9Tree.remove_node 1).nodes_by_name "nodeN" = none ∧
    ((c9Tree.remove_node 1).arena 0).map (fun d => d.children) = some [] := by
  have h := remove_node_leaves_descendants_indexed c9Tree 1 0 2
    ⟨"n", some "nodeN", some 0, [2], true⟩ ⟨"root", none, none, [1], true⟩
    ⟨"c", some "nodeC", some 1, [], true⟩
    (by decide) (by decide) (by decide) (by decide) (by decide) (by decide)
    (by decide)
    (DOMTree.IsDescendant.child 1 2 ⟨"n", some "nodeN", some 0, [2], true⟩
      (by decide) (by decide))
    (by decide) (by decide) (by decide) (by decide) (by decide)
  exact h

/-- C2: the claim says an unchanged tree re-rendered immediately after a
successful pass produces zero diff writes. With one registered renderable
whose content is a single `"X"` cell at the origin of a 2×2 terminal, the
first `render_frame` writes that cell; the second pass — same terminal size,
renderable unchanged and not dirty — clears `current_frame` but skips the
non-dirty node, so the diff against the previous frame emits one write that
blanks the cell: one diff write, not zero. -/
theorem second_render_pass_not_writeless :
    (Renderer.render_frame 10 c2Renderer (2, 2) c2Update).writes =
      [(1, 1, c2Cell)] ∧
    (Renderer.render_frame 10
        (Renderer.render_frame 10 c2Renderer (2, 2) c2Update).renderer
        (2, 2) c2Update).writes = [(1, 1, blankChar)] ∧
    (Renderer.render_frame 10
        (Renderer.render_frame 10 c2Renderer (2, 2) c2Update).renderer
        (2, 2) c2Update).writes.length = 1 := by
  decide

attribute [local semireducible] Rat.sub

/-- C6: the claim says a buttonless `MouseMove` processed while buttons are
recorded down always synthesizes deduplicated `MouseUp` events, sends them
before the move, and clears the recorded list. Processing move, down
(button 1), buttonless move on a fresh driver reaches the synthesis branch,
which clears `_down_buttons` and then calls
`events.MouseUp(message.widget, move_event.x, move_event.y, button=button)`
— a call that raises `TypeError` under `events.MouseEvent`'s declared
parameter order `(x, y, button, widget)`, so no `MouseUp` is sent and the
move itself is never forwarded. -/
theorem mouse_up_synthesis_raises_type_error :
    c6State2.down_buttons = [PyVal.num 1] ∧
    c6State2.last_move_event =
      some (mouseEventInit (.num 0) (.num 0) .none .none) ∧
    c6Result.sent = [] ∧
    c6Result.error =
      some (.typeError "MouseUp() got multiple values for argument 'button'") ∧
    c6Result.state.down_buttons = [] := by
  decide

/-- C1: the claim says feeding `ESC[<0;10;5M` yields one `MouseDown` with
`x = 9`, `y = 4`, `button = 0`. A fresh parser does yield exactly one
message, but the mouse code decodes to the call
`event_class(None, 9.0, 4.0, 1)`: the computed button index is
`(0 + 1) & 3 = 1` (not `0`, which `events.py` documents as the left
button), and the positional binding to the declared field order
`(x, y, button, widget)` leaves the event with `x = None`, `y = 9`,
`button = 4`, `widget = 1`. -/
theorem sgr_mouse_down_event :
    Parser.feed Parser.init 0 ("\x1b[<0;10;5M".data) =
      .ok ([Msg.mouse .down
              (mouseEventInit PyVal.none (.num 9) (.num 4) (.num 1))],
        ⟨⟨.ground, false, [], false, none, none, 9, 4⟩, false, none⟩) ∧
    (mouseEventInit PyVal.none (.num 9) (.num 4) (.num 1)).button ≠
      PyVal.num 0 ∧
    (mouseEventInit PyVal.none (.num 9) (.num 4) (.num 1)).x ≠
      PyVal.num 9 := by
  decide

/-- C4: feeding a non-empty character sequence to a non-exhausted parser as
one `feed` call and feeding it one character per `feed` call (all at the
same time, with no timeout firing in between) produce the same event
sequence in the same order — and the same final parser state. -/
theorem feed_chunking_independent
    (now : ℚ) (data : List Char) (st : ParserState)
    (hne : data ≠ []) (heof : st.eofFlag = false) :
    Parser.feed st now data = Parser.feedEach now st data := by
  induction data generalizing st with
  | nil => exact absurd rfl hne
  | cons c rest ih =>
    obtain ⟨machine, eofFlag, tt⟩ := st
    simp only at heof
    subst heof
    cases rest with
    | nil =>
      simp [Parser.feed, Parser.feedEach, feedLoop]
    | cons r rs =>
      have ihh := ih ⟨(resume machine (.chr c)).1, false,
        (awaitingTimeout (feedLoop machine [c]).2).map (fun t => now + t)⟩
        (List.cons_ne_nil r rs) rfl
      simp only [Parser.feedEach, Parser.feed, Bool.false_eq_true, if_false,
        feedLoop, List.append_nil] at ihh ⊢
      rw [← ihh]

/-- Witness for C4 at the concrete input `"ab"` on a fresh parser. -/
theorem feed_chunking_independent_witness :
    Parser.feed Parser.init 0 ("ab".data) =
      Parser.feedEach 0 Parser.init ("ab".data) :=
  feed_chunking_independent 0 ("ab".data) Parser.init (by decide) rfl

/-- C5: feeding a lone ESC produces no event yet and arms the escape
timeout; a `tick` at any time past the deadline delivers exactly one
`Key("escape")` event — not zero and not more — and leaves the machine back
at ground with the timeout disarmed. -/
theorem lone_escape_timeout_single_key
    (now later : ℚ) (h : now + ESCAPE_DELAY ≤ later) :
    Parser.feed Parser.init now ['\x1b'] = .ok ([], c5AfterEsc now) ∧
    Parser.tick (c5AfterEsc now) later =
      ([Msg.key ⟨"escape", some "\x1b"⟩], ⟨machineInit, false, none⟩) := by
  refine ⟨rfl, ?_⟩
  simp only [Parser.tick, c5AfterEsc]
  rw [if_pos h]
  rfl

/-- Witness for C5 with the timeout armed at time 0 and the tick at time 1
(past the 0.1 s deadline). -/
theorem lone_escape_timeout_single_key_witness :
    Parser.feed Parser.init 0 ['\x1b'] = .ok ([], c5AfterEsc 0) ∧
    Parser.tick (c5AfterEsc 0) 1 =
      ([Msg.key ⟨"escape", some "\x1b"⟩], ⟨machineInit, false, none⟩) :=
  lone_escape_timeout_single_key 0 1 (by norm_num [ESCAPE_DELAY])

/-- C10: feeding the empty string to a non-exhausted parser marks it
`is_eof`; every later `feed` call, whatever its data, raises
`ParseError("end of file reached")` and yields no event. -/
theorem feed_after_eof_raises
    (st : ParserState) (now : ℚ) (heof : st.eofFlag = false) :
    ∃ evs mach,
      Parser.feed st now [] = .ok (evs, ⟨mach, true, st.timeout_time⟩) ∧
      Parser.is_eof ⟨mach, true, st.timeout_time⟩ = true ∧
      ∀ (data : List Char) (later : ℚ),
        Parser.feed ⟨mach, true, st.timeout_time⟩ later data =
          .error ⟨"end of file reached"⟩ := by
  refine ⟨(resume st.machine .endOfInput).2, (resume st.machine .endOfInput).1,
    ?_, rfl, fun data later => rfl⟩
  simp [Parser.feed, heof]

/-- Witness for C10 on a fresh parser at time 0. -/
theorem feed_after_eof_raises_witness :
    Parser.init.eofFlag = false ∧
    ∃ evs mach,
      Parser.feed Parser.init 0 [] =
        .ok (evs, ⟨mach, true, Parser.init.timeout_time⟩) ∧
      Parser.is_eof ⟨mach, true, Parser.init.timeout_time⟩ = true ∧
      ∀ (data : List Char) (later : ℚ),
        Parser.feed ⟨mach, true, Parser.init.timeout_time⟩ later data =
          .error ⟨"end of file reached"⟩ :=
  ⟨rfl, feed_after_eof_raises Parser.init 0 rfl⟩

end Termui
